import Mathlib

/-!
Verification of the AgriManagement backend's order/credit core.

The embedding follows the Python source:
  * `app/api/transactions.py`  — `create_transaction` (the Order Engine),
  * `app/api/credits.py`       — `create_credit_repayment`,
  * `app/api/produce.py`       — `update_produce`,
  * `app/models/*.py`, `app/schemas/*.py` — row and request shapes.

Modelling conventions:
  * `Decimal` / `float` money and quantity values are modelled exactly as `ℚ`
    (`Decimal(str(x))` and `float(x)` conversions are the identity in this model).
  * `db.query(T).filter(T.c == v).first()` is `List.find?`; mutating the single
    ORM object returned by `first()` is `updateFirst` (update of the first match).
  * Python float truthiness (`if item.unit_price`) is the test `≠ 0`.
  * `raise HTTPException` is `Except.error` with a constructor per raise site,
    carrying the source's HTTP status code via `Err.statusCode` and its detail
    text via `Err.detail` where a claim depends on it.
-/

namespace AgriManagement

/-- `app/models/user.py` / identity claims: the fields the core reads. -/
structure User where
  id : Nat
  role : String
  is_active : Bool
deriving Repr, DecidableEq

/-- `app/models/product.py`: columns read or written by the order flow. -/
structure Product where
  id : Nat
  name : String
  price : ℚ
  quantity_in_stock : ℚ
deriving Repr, DecidableEq

/-- `app/models/produce.py`: columns read or written by the order flow and
the produce update endpoint. -/
structure Produce where
  id : Nat
  name : String
  category : String
  quantity : ℚ
  price_per_unit : ℚ
  farmer_id : Nat
  is_available : Bool
deriving Repr, DecidableEq

/-- `app/models/credit.py`: `CreditAccount` columns used by the core. -/
structure CreditAccount where
  id : Nat
  farmer_id : Nat
  credit_limit : ℚ
  current_balance : ℚ
deriving Repr, DecidableEq

/-- `app/models/credit.py`: `CreditRepayment` row. -/
structure CreditRepaymentRow where
  id : Nat
  credit_account_id : Nat
  amount : ℚ
  repayment_method : String
  recorded_by : Nat
deriving Repr, DecidableEq

/-- `app/models/transaction.py`: `Transaction` row. -/
structure TransactionRow where
  id : Nat
  transaction_type : String
  user_id : Nat
  amount : ℚ
  payment_method : String
  status : String
  notes : Option String
deriving Repr, DecidableEq

/-- `app/models/transaction.py`: `TransactionItem` row. -/
structure TransactionItemRow where
  transaction_id : Nat
  product_id : Option Nat
  produce_id : Option Nat
  quantity : ℚ
  unit_price : ℚ
deriving Repr, DecidableEq

/-- `app/models/transaction.py`: `Commission` row. -/
structure CommissionRow where
  transaction_id : Nat
  amount : ℚ
  commission_rate : ℚ
  beneficiary_id : Nat
deriving Repr, DecidableEq

/-- `app/schemas/transaction.py`: `TransactionItemCreate`. Both `quantity` and
`unit_price` are required (non-`Optional`) `float` fields in the schema. -/
structure TransactionItemCreate where
  product_id : Option Nat
  produce_id : Option Nat
  quantity : ℚ
  unit_price : ℚ
deriving Repr, DecidableEq

/-- `app/schemas/transaction.py`: `TransactionCreate`. The `amount` field is
required by the schema but never read by `create_transaction`. -/
structure TransactionCreate where
  transaction_type : String
  amount : ℚ
  payment_method : String
  status : String
  notes : Option String
  items : List TransactionItemCreate
deriving Repr, DecidableEq

/-- `app/schemas/credit.py`: `CreditRepaymentCreate`. -/
structure CreditRepaymentCreate where
  credit_account_id : Nat
  amount : ℚ
  repayment_method : String
deriving Repr, DecidableEq

/-- `app/schemas/produce.py`: `ProduceUpdate` — every field optional; the
endpoint applies exactly the fields that were set (`exclude_unset`). -/
structure ProduceUpdate where
  name : Option String := none
  category : Option String := none
  quantity : Option ℚ := none
  price_per_unit : Option ℚ := none
  is_available : Option Bool := none
deriving Repr, DecidableEq

/-- The database state: one list per table touched by the core. -/
structure DB where
  users : List User
  products : List Product
  produces : List Produce
  credit_accounts : List CreditAccount
  transactions : List TransactionRow
  transaction_items : List TransactionItemRow
  commissions : List CommissionRow
  credit_repayments : List CreditRepaymentRow
deriving Repr, DecidableEq

/-- One constructor per `raise HTTPException` site reached by the embedded
endpoints. -/
inductive Err where
  | forbiddenPurchaseRole
  | forbiddenSaleRole
  | invalidTransactionType
  | productIdRequired
  | productNotFound (id : Nat)
  | insufficientStock (id : Nat)
  | produceIdRequired
  | produceNotFound (id : Nat)
  | produceUnavailable (id : Nat)
  | insufficientProduceQuantity (id : Nat)
  | forbiddenCreditRole
  | noCreditAccount
  | creditLimitExceeded
  | salespersonRequired
  | creditAccountNotFound
  | invalidRepaymentAmount
  | repaymentExceedsBalance
  | notEnoughPermissions
deriving Repr, DecidableEq

/-- HTTP status code of each raise site, from the source. -/
def Err.statusCode : Err → Nat
  | .forbiddenPurchaseRole => 403
  | .forbiddenSaleRole => 403
  | .invalidTransactionType => 400
  | .productIdRequired => 400
  | .productNotFound _ => 404
  | .insufficientStock _ => 400
  | .produceIdRequired => 400
  | .produceNotFound _ => 404
  | .produceUnavailable _ => 400
  | .insufficientProduceQuantity _ => 400
  | .forbiddenCreditRole => 403
  | .noCreditAccount => 400
  | .creditLimitExceeded => 400
  | .salespersonRequired => 403
  | .creditAccountNotFound => 404
  | .invalidRepaymentAmount => 400
  | .repaymentExceedsBalance => 400
  | .notEnoughPermissions => 403

/-- The fixed `detail` strings of the raise sites a claim depends on
(`app/api/transactions.py` lines 34-45). -/
def Err.detail : Err → String
  | .forbiddenPurchaseRole => "Only farmers and salespersons can create product purchases"
  | .forbiddenSaleRole => "Only salespersons can record produce sales"
  | .invalidTransactionType => "Invalid transaction type"
  | _ => ""

/-- Update the first element satisfying `p` (the ORM pattern of mutating the
single object returned by `.first()`). -/
def updateFirst (p : α → Bool) (g : α → α) : List α → List α
  | [] => []
  | x :: xs => if p x then g x :: xs else x :: updateFirst p g xs

/-- `app/api/transactions.py` line 23: `COMMISSION_RATE = Decimal('0.05')`. -/
def COMMISSION_RATE : ℚ := 5 / 100

/-- `app/api/transactions.py` lines 31-45: transaction-type / role validation,
performed before any state is read or written. -/
def validateTypeRole (transaction_type role : String) : Except Err Unit :=
  if transaction_type = "product_purchase" then
    if role = "admin" ∨ role = "salesperson" then .ok () else .error .forbiddenPurchaseRole
  else if transaction_type = "produce_sale" then
    if role = "salesperson" then .ok () else .error .forbiddenSaleRole
  else .error .invalidTransactionType

/-- `app/api/transactions.py` lines 72-73 and 112-113: use the provided
`unit_price` when truthy (nonzero), else fall back to the catalog price. -/
def snapshotPrice (override catalog : ℚ) : ℚ :=
  if override ≠ 0 then override else catalog

/-- A line buffered in `items_to_create` (dict literal at lines 77-81 / 117-121). -/
structure ItemData where
  product_id : Option Nat
  produce_id : Option Nat
  quantity : ℚ
  unit_price : ℚ
deriving Repr, DecidableEq

/-- Body of the `for item in transaction.items` loop
(`app/api/transactions.py` lines 51-128) for one item: returns the line's
contribution to `total_amount`, the buffered `items_to_create` entries (one
for the two known transaction types, none otherwise — the `elif` chain has no
`else`), and the session state with the inventory mutation applied. -/
def processItem (transaction_type : String) (db : DB) (item : TransactionItemCreate) :
    Except Err (ℚ × List ItemData × DB) :=
  if transaction_type = "product_purchase" then
    match item.product_id with
    | none => .error .productIdRequired
    | some pid =>
      match db.products.find? (fun p => p.id = pid) with
      | none => .error (.productNotFound pid)
      | some product =>
        if product.quantity_in_stock < item.quantity then
          .error (.insufficientStock pid)
        else
          let unit_price := snapshotPrice item.unit_price product.price
          let db' := { db with
            products := updateFirst (fun p => p.id = pid)
              (fun p => { p with quantity_in_stock := p.quantity_in_stock - item.quantity })
              db.products }
          .ok (item.quantity * unit_price,
               [⟨some product.id, none, item.quantity, unit_price⟩], db')
  else if transaction_type = "produce_sale" then
    match item.produce_id with
    | none => .error .produceIdRequired
    | some pid =>
      match db.produces.find? (fun p => p.id = pid) with
      | none => .error (.produceNotFound pid)
      | some produce =>
        if produce.is_available = false then
          .error (.produceUnavailable pid)
        else if produce.quantity < item.quantity then
          .error (.insufficientProduceQuantity pid)
        else
          let unit_price := snapshotPrice item.unit_price produce.price_per_unit
          let db' := { db with
            produces := updateFirst (fun p => p.id = pid)
              (fun p =>
                let q := p.quantity - item.quantity
                if q ≤ 0 then { p with quantity := 0, is_available := false }
                else { p with quantity := q })
              db.produces }
          .ok (item.quantity * unit_price,
               [⟨none, some produce.id, item.quantity, unit_price⟩], db')
  else
    .ok (0, [], db)

/-- The item loop (`app/api/transactions.py` lines 47-128): accumulates
`total_amount` and `items_to_create`, threading the session state; the first
failing line aborts the whole loop. -/
def processItems (transaction_type : String) (items : List TransactionItemCreate)
    (total_amount : ℚ) (items_to_create : List ItemData) (db : DB) :
    Except Err (ℚ × List ItemData × DB) :=
  match items with
  | [] => .ok (total_amount, items_to_create, db)
  | item :: rest =>
    match processItem transaction_type db item with
    | .error e => .error e
    | .ok (c, ds, db') =>
      processItems transaction_type rest (total_amount + c) (items_to_create ++ ds) db'

/-- `app/api/transactions.py` lines 130-158: the credit-payment branch. -/
def applyCreditCheck (db : DB) (current_user : User) (payment_method : String)
    (total_amount : ℚ) : Except Err DB :=
  if payment_method = "credit" then
    if current_user.role ≠ "farmer" then .error .forbiddenCreditRole
    else
      match db.credit_accounts.find? (fun a => a.farmer_id = current_user.id) with
      | none => .error .noCreditAccount
      | some credit_account =>
        if total_amount > credit_account.credit_limit - credit_account.current_balance then
          .error .creditLimitExceeded
        else
          .ok { db with
            credit_accounts := updateFirst (fun a => a.farmer_id = current_user.id)
              (fun a => { a with current_balance := a.current_balance + total_amount })
              db.credit_accounts }
  else .ok db

/-- `app/api/transactions.py` lines 25-198: `create_transaction`.
The `db.flush()` at line 171 only assigns the new transaction's id
(modelled as the next autoincrement value); nothing is committed before the
single `db.commit()` at line 196, so the function returns either an error
(session state discarded) or the fully mutated state. -/
def create_transaction (db : DB) (current_user : User) (tx : TransactionCreate) :
    Except Err (DB × TransactionRow) :=
  match validateTypeRole tx.transaction_type current_user.role with
  | .error e => .error e
  | .ok _ =>
    match processItems tx.transaction_type tx.items 0 [] db with
    | .error e => .error e
    | .ok (total_amount, items_to_create, db1) =>
      match applyCreditCheck db1 current_user tx.payment_method total_amount with
      | .error e => .error e
      | .ok db2 =>
        let txid := db2.transactions.length + 1
        let db_transaction : TransactionRow :=
          { id := txid
            transaction_type := tx.transaction_type
            user_id := current_user.id
            amount := total_amount
            payment_method := tx.payment_method
            status := tx.status
            notes := tx.notes }
        let newItems : List TransactionItemRow := items_to_create.map (fun d =>
          { transaction_id := txid
            product_id := d.product_id
            produce_id := d.produce_id
            quantity := d.quantity
            unit_price := d.unit_price })
        let newCommissions : List CommissionRow :=
          if tx.transaction_type = "produce_sale" then
            match db2.users.find? (fun u => u.role = "admin") with
            | some admin_user =>
              [{ transaction_id := txid
                 amount := total_amount * COMMISSION_RATE
                 commission_rate := COMMISSION_RATE
                 beneficiary_id := admin_user.id }]
            | none => []
          else []
        .ok ({ db2 with
               transactions := db2.transactions ++ [db_transaction]
               transaction_items := db2.transaction_items ++ newItems
               commissions := db2.commissions ++ newCommissions },
             db_transaction)

/-- Modelled from the spec: `app/db/session.py` (the `get_db` session
dependency) is not under `src/`. Per the spec's commit boundary (§4.4, §7),
an aborted request discards the session's uncommitted work — the committed
state after an error is the pre-call state — while the single `db.commit()`
publishes the session's working state on success. -/
def create_transaction_endpoint (db : DB) (current_user : User) (tx : TransactionCreate) :
    DB × Option TransactionRow :=
  match create_transaction db current_user tx with
  | .error _ => (db, none)
  | .ok (db', t) => (db', some t)

/-- `app/api/credits.py` lines 119-165: `create_credit_repayment`. The route's
`Depends(is_salesperson)` dependency (`app/auth/security.py`) rejects any
caller whose role is not `salesperson` before the body runs. -/
def create_credit_repayment (db : DB) (current_user : User) (r : CreditRepaymentCreate) :
    Except Err (DB × CreditRepaymentRow) :=
  if current_user.role ≠ "salesperson" then .error .salespersonRequired
  else
    match db.credit_accounts.find? (fun a => a.id = r.credit_account_id) with
    | none => .error .creditAccountNotFound
    | some credit_account =>
      if r.amount ≤ 0 then .error .invalidRepaymentAmount
      else if r.amount > credit_account.current_balance then .error .repaymentExceedsBalance
      else
        let db_repayment : CreditRepaymentRow :=
          { id := db.credit_repayments.length + 1
            credit_account_id := r.credit_account_id
            amount := r.amount
            repayment_method := r.repayment_method
            recorded_by := current_user.id }
        .ok ({ db with
               credit_repayments := db.credit_repayments ++ [db_repayment]
               credit_accounts := updateFirst (fun a => a.id = r.credit_account_id)
                 (fun a => { a with current_balance := a.current_balance - r.amount })
                 db.credit_accounts },
             db_repayment)

/-- `app/api/produce.py` lines 88-90: apply the set fields of a
`ProduceUpdate` onto the row (`setattr` per field in `exclude_unset`). -/
def applyProduceUpdate (p : Produce) (u : ProduceUpdate) : Produce :=
  { p with
    name := u.name.getD p.name
    category := u.category.getD p.category
    quantity := u.quantity.getD p.quantity
    price_per_unit := u.price_per_unit.getD p.price_per_unit
    is_available := u.is_available.getD p.is_available }

/-- `app/api/produce.py` lines 73-95: `update_produce`. -/
def update_produce (db : DB) (current_user : User) (produce_id : Nat)
    (upd : ProduceUpdate) : Except Err (DB × Produce) :=
  match db.produces.find? (fun p => p.id = produce_id) with
  | none => .error (.produceNotFound produce_id)
  | some db_produce =>
    if current_user.role ≠ "admin" ∧ current_user.id ≠ db_produce.farmer_id then
      .error .notEnoughPermissions
    else
      .ok ({ db with
             produces := updateFirst (fun p => p.id = produce_id)
               (fun p => applyProduceUpdate p upd) db.produces },
           applyProduceUpdate db_produce upd)

/-- `app/api/credits.py`: committed-state view of `create_credit_repayment`.
Modelled from the spec: `app/db/session.py` (the `get_db` session dependency)
is not under `src/`; per the spec, an aborted request leaves the committed
state untouched and the final `db.commit()` publishes the working state. -/
def create_credit_repayment_endpoint (db : DB) (current_user : User)
    (r : CreditRepaymentCreate) : DB × Option CreditRepaymentRow :=
  match create_credit_repayment db current_user r with
  | .error _ => (db, none)
  | .ok (db', rec) => (db', some rec)

/-- One committed operation of the order/repayment core, as seen from the
durable store: a failed call leaves the state unchanged. -/
inductive Op where
  | order (u : User) (tx : TransactionCreate)
  | repay (u : User) (r : CreditRepaymentCreate)

/-- Apply one committed operation to the durable state. -/
def applyOp (db : DB) : Op → DB
  | .order u tx => (create_transaction_endpoint db u tx).1
  | .repay u r => (create_credit_repayment_endpoint db u r).1

/-- Apply a sequence of committed operations. -/
def applyOps (db : DB) (ops : List Op) : DB := ops.foldl applyOp db

/-- The spec's CreditAccount invariant: `0 <= current_balance <= credit_limit`
for every account. -/
abbrev CreditInvariant (db : DB) : Prop :=
  ∀ a ∈ db.credit_accounts, 0 ≤ a.current_balance ∧ a.current_balance ≤ a.credit_limit

/-- The spec's Produce invariant: `is_available == (quantity > 0)`. -/
abbrev ProduceInvariant (db : DB) : Prop :=
  ∀ p ∈ db.produces, p.is_available = decide (0 < p.quantity)

/-! ### Concrete states used by witnesses and counterexamples -/

def c1user : User := ⟨1, "admin", true⟩

def c1db : DB :=
  { users := [⟨1, "admin", true⟩]
    products := [⟨1, "hoe", 2, 10⟩, ⟨2, "rake", 3, 1⟩]
    produces := []
    credit_accounts := []
    transactions := []
    transaction_items := []
    commissions := []
    credit_repayments := [] }

def c1tx : TransactionCreate :=
  ⟨"product_purchase", 99, "cash", "completed", none,
   [⟨some 1, none, 4, 0⟩, ⟨some 2, none, 5, 0⟩]⟩

def c1dbMid : DB := { c1db with products := [⟨1, "hoe", 2, 6⟩, ⟨2, "rake", 3, 1⟩] }

def c2db : DB :=
  { users := [⟨7, "farmer", true⟩, ⟨8, "salesperson", true⟩]
    products := []
    produces := []
    credit_accounts := [⟨1, 7, 100, 90⟩]
    transactions := []
    transaction_items := []
    commissions := []
    credit_repayments := [] }

def c2ops : List Op :=
  [ .repay ⟨8, "salesperson", true⟩ ⟨1, 50, "cash"⟩,
    .repay ⟨8, "salesperson", true⟩ ⟨1, 50, "cash"⟩ ]

def c3db : DB :=
  { users := [⟨1, "admin", true⟩]
    products := []
    produces := [⟨1, "kale", "vegetable", 5, 3, 2, true⟩]
    credit_accounts := []
    transactions := []
    transaction_items := []
    commissions := []
    credit_repayments := [] }

def c3sUser : User := ⟨2, "salesperson", true⟩

def c3s_db : DB :=
  { users := [⟨1, "admin", true⟩, ⟨2, "salesperson", true⟩]
    products := []
    produces := [⟨1, "kale", "vegetable", 5, 3, 9, true⟩]
    credit_accounts := []
    transactions := []
    transaction_items := []
    commissions := []
    credit_repayments := [] }

def c3s_tx : TransactionCreate :=
  ⟨"produce_sale", 0, "cash", "completed", none, [⟨none, some 1, 5, 0⟩]⟩

def c3s_t : TransactionRow := ⟨1, "produce_sale", 2, 15, "cash", "completed", none⟩

def c3s_db' : DB :=
  { users := [⟨1, "admin", true⟩, ⟨2, "salesperson", true⟩]
    products := []
    produces := [⟨1, "kale", "vegetable", 0, 3, 9, false⟩]
    credit_accounts := []
    transactions := [c3s_t]
    transaction_items := [⟨1, none, some 1, 5, 3⟩]
    commissions := [⟨1, 3/4, 1/20, 1⟩]
    credit_repayments := [] }

def c4db : DB :=
  { users := [⟨4, "farmer", true⟩]
    products := [⟨1, "hoe", 2, 10⟩]
    produces := []
    credit_accounts := []
    transactions := []
    transaction_items := []
    commissions := []
    credit_repayments := [] }

def c4tx : TransactionCreate :=
  ⟨"product_purchase", 0, "cash", "completed", none, [⟨some 1, none, 1, 0⟩]⟩

def c5db : DB :=
  { users := [⟨2, "salesperson", true⟩]
    products := []
    produces := [⟨1, "kale", "vegetable", 5, 3, 9, true⟩]
    credit_accounts := []
    transactions := []
    transaction_items := []
    commissions := []
    credit_repayments := [] }

def c5tx : TransactionCreate :=
  ⟨"produce_sale", 0, "cash", "completed", none, [⟨none, some 1, 5, 0⟩]⟩

def c5t : TransactionRow := ⟨1, "produce_sale", 2, 15, "cash", "completed", none⟩

def c5db' : DB :=
  { users := [⟨2, "salesperson", true⟩]
    products := []
    produces := [⟨1, "kale", "vegetable", 0, 3, 9, false⟩]
    credit_accounts := []
    transactions := [c5t]
    transaction_items := [⟨1, none, some 1, 5, 3⟩]
    commissions := []
    credit_repayments := [] }

def c5aUser : User := ⟨2, "salesperson", true⟩

def c5a_db : DB :=
  { users := [⟨1, "admin", true⟩, ⟨2, "salesperson", true⟩]
    products := []
    produces := [⟨1, "kale", "vegetable", 5, 3, 9, true⟩]
    credit_accounts := []
    transactions := []
    transaction_items := []
    commissions := []
    credit_repayments := [] }

def c5a_tx : TransactionCreate :=
  ⟨"produce_sale", 0, "cash", "completed", none, [⟨none, some 1, 2, 0⟩]⟩

def c5a_t : TransactionRow := ⟨1, "produce_sale", 2, 6, "cash", "completed", none⟩

def c5a_db' : DB :=
  { users := [⟨1, "admin", true⟩, ⟨2, "salesperson", true⟩]
    products := []
    produces := [⟨1, "kale", "vegetable", 3, 3, 9, true⟩]
    credit_accounts := []
    transactions := [c5a_t]
    transaction_items := [⟨1, none, some 1, 2, 3⟩]
    commissions := [⟨1, 3/10, 1/20, 1⟩]
    credit_repayments := [] }

def c6user : User := ⟨1, "admin", true⟩

def c6db : DB :=
  { users := [⟨1, "admin", true⟩]
    products := [⟨1, "hoe", 2, 10⟩, ⟨2, "rake", 3, 4⟩]
    produces := []
    credit_accounts := []
    transactions := []
    transaction_items := []
    commissions := []
    credit_repayments := [] }

def c6tx : TransactionCreate :=
  ⟨"product_purchase", 1234, "cash", "completed", none,
   [⟨some 1, none, 4, 0⟩, ⟨some 2, none, 2, 5⟩]⟩

def c6t : TransactionRow := ⟨1, "product_purchase", 1, 18, "cash", "completed", none⟩

def c6db' : DB :=
  { users := [⟨1, "admin", true⟩]
    products := [⟨1, "hoe", 2, 6⟩, ⟨2, "rake", 3, 2⟩]
    produces := []
    credit_accounts := []
    transactions := [c6t]
    transaction_items := [⟨1, some 1, none, 4, 2⟩, ⟨1, some 2, none, 2, 5⟩]
    commissions := []
    credit_repayments := [] }

def c7prod : Product := ⟨1, "hoe", 2, 10⟩

def c7db : DB :=
  { users := [⟨1, "admin", true⟩]
    products := [c7prod]
    produces := []
    credit_accounts := []
    transactions := []
    transaction_items := []
    commissions := []
    credit_repayments := [] }

def c7item : TransactionItemCreate := ⟨some 1, none, 4, 0⟩

def c7item2 : TransactionItemCreate := ⟨some 1, none, 11, 0⟩

def c8user : User := ⟨1, "admin", true⟩

def c8db : DB :=
  { users := [⟨1, "admin", true⟩]
    products := [⟨1, "hoe", 5, 10⟩]
    produces := []
    credit_accounts := []
    transactions := []
    transaction_items := []
    commissions := []
    credit_repayments := [] }

def c8tx : TransactionCreate :=
  ⟨"product_purchase", 0, "cash", "completed", none, [⟨some 1, none, 2, -1⟩]⟩

def c8t : TransactionRow := ⟨1, "product_purchase", 1, -2, "cash", "completed", none⟩

def c8db' : DB :=
  { users := [⟨1, "admin", true⟩]
    products := [⟨1, "hoe", 5, 8⟩]
    produces := []
    credit_accounts := []
    transactions := [c8t]
    transaction_items := [⟨1, some 1, none, 2, -1⟩]
    commissions := []
    credit_repayments := [] }

def c8witem : TransactionItemCreate := ⟨some 1, none, 2, 0⟩

def c9sales : User := ⟨8, "salesperson", true⟩

def c9acct : CreditAccount := ⟨1, 7, 100, 90⟩

def c9db : DB :=
  { users := [⟨7, "farmer", true⟩, ⟨8, "salesperson", true⟩]
    products := []
    produces := []
    credit_accounts := [c9acct]
    transactions := []
    transaction_items := []
    commissions := []
    credit_repayments := [] }

def c9req : CreditRepaymentCreate := ⟨1, 50, "cash"⟩

def c10u : User := ⟨3, "salesperson", true⟩

def c10db : DB :=
  { users := [⟨3, "salesperson", true⟩]
    products := []
    produces := []
    credit_accounts := []
    transactions := []
    transaction_items := []
    commissions := []
    credit_repayments := [] }

def c10tx : TransactionCreate :=
  ⟨"product_purchase", 0, "credit", "completed", none, []⟩

/-! ### Helper lemmas -/

theorem mem_updateFirst_of_find? {α : Type} {p : α → Bool} {g : α → α}
    {xs : List α} {x₀ : α} (hf : xs.find? p = some x₀) :
    ∀ y ∈ updateFirst p g xs, y ∈ xs ∨ y = g x₀ := by
  induction xs with
  | nil => simp at hf
  | cons x xs ih =>
    intro y hy
    by_cases hx : p x
    · rw [List.find?_cons_of_pos _ hx] at hf
      cases hf
      simp only [updateFirst, if_pos hx] at hy
      rcases List.mem_cons.mp hy with h | h
      · exact Or.inr h
      · exact Or.inl (List.mem_cons_of_mem _ h)
    · rw [List.find?_cons_of_neg _ hx] at hf
      simp only [updateFirst, if_neg hx] at hy
      rcases List.mem_cons.mp hy with h | h
      · exact Or.inl (h ▸ List.mem_cons_self x xs)
      · rcases ih hf y h with h2 | h2
        · exact Or.inl (List.mem_cons_of_mem _ h2)
        · exact Or.inr h2

theorem find?_updateFirst {α : Type} {p : α → Bool} {g : α → α}
    {xs : List α} {x₀ : α} (hf : xs.find? p = some x₀)
    (hg : p (g x₀) = true) :
    (updateFirst p g xs).find? p = some (g x₀) := by
  induction xs with
  | nil => simp at hf
  | cons x xs ih =>
    by_cases hx : p x
    · rw [List.find?_cons_of_pos _ hx] at hf
      cases hf
      simp only [updateFirst, if_pos hx]
      exact List.find?_cons_of_pos _ hg
    · rw [List.find?_cons_of_neg _ hx] at hf
      simp only [updateFirst, if_neg hx]
      rw [List.find?_cons_of_neg _ hx]
      exact ih hf

theorem processItem_ok_tables {tt : String} {db : DB} {item : TransactionItemCreate}
    {c : ℚ} {ds : List ItemData} {db' : DB}
    (h : processItem tt db item = .ok (c, ds, db')) :
    db'.users = db.users ∧ db'.credit_accounts = db.credit_accounts ∧
    db'.transactions = db.transactions ∧
    db'.transaction_items = db.transaction_items ∧
    db'.commissions = db.commissions ∧
    db'.credit_repayments = db.credit_repayments := by
  unfold processItem at h
  repeat' split at h
  all_goals simp_all
  all_goals (obtain ⟨-, -, rfl⟩ := h; exact ⟨rfl, rfl, rfl, rfl, rfl, rfl⟩)

theorem processItems_ok_tables {tt : String} {items : List TransactionItemCreate}
    {t0 : ℚ} {a0 : List ItemData} {db : DB}
    {T : ℚ} {A : List ItemData} {db' : DB}
    (h : processItems tt items t0 a0 db = .ok (T, A, db')) :
    db'.users = db.users ∧ db'.credit_accounts = db.credit_accounts ∧
    db'.transactions = db.transactions ∧
    db'.transaction_items = db.transaction_items ∧
    db'.commissions = db.commissions ∧
    db'.credit_repayments = db.credit_repayments := by
  induction items generalizing t0 a0 db with
  | nil =>
    unfold processItems at h
    simp only [Except.ok.injEq, Prod.mk.injEq] at h
    obtain ⟨-, -, rfl⟩ := h
    exact ⟨rfl, rfl, rfl, rfl, rfl, rfl⟩
  | cons item rest ih =>
    unfold processItems at h
    cases hp : processItem tt db item with
    | error e => rw [hp] at h; cases h
    | ok v =>
      obtain ⟨c, ds, dbm⟩ := v
      rw [hp] at h
      obtain ⟨h1, h2, h3, h4, h5, h6⟩ := ih h
      obtain ⟨g1, g2, g3, g4, g5, g6⟩ := processItem_ok_tables hp
      exact ⟨h1.trans g1, h2.trans g2, h3.trans g3, h4.trans g4, h5.trans g5, h6.trans g6⟩

theorem validateTypeRole_ok_role {tt role : String}
    (h : validateTypeRole tt role = .ok ()) :
    role = "admin" ∨ role = "salesperson" := by
  unfold validateTypeRole at h
  repeat' split at h
  all_goals simp_all

theorem applyCreditCheck_ok_tables {db : DB} {u : User} {pm : String} {total : ℚ}
    {db' : DB} (h : applyCreditCheck db u pm total = .ok db') :
    db'.users = db.users ∧ db'.products = db.products ∧
    db'.produces = db.produces ∧ db'.transactions = db.transactions ∧
    db'.transaction_items = db.transaction_items ∧
    db'.commissions = db.commissions ∧
    db'.credit_repayments = db.credit_repayments := by
  unfold applyCreditCheck at h
  repeat' split at h
  all_goals simp_all
  all_goals (cases h; exact ⟨rfl, rfl, rfl, rfl, rfl, rfl, rfl⟩)

theorem applyCreditCheck_ok_of_role_ne_farmer {db : DB} {u : User} {pm : String}
    {total : ℚ} {db' : DB} (hrole : u.role ≠ "farmer")
    (h : applyCreditCheck db u pm total = .ok db') : db' = db := by
  unfold applyCreditCheck at h
  repeat' split at h
  all_goals simp_all

theorem applyCreditCheck_credit_error {db : DB} {u : User} {total : ℚ}
    (hrole : u.role ≠ "farmer") :
    applyCreditCheck db u "credit" total = .error .forbiddenCreditRole := by
  unfold applyCreditCheck
  simp [hrole]

theorem create_transaction_ok_inv {db : DB} {u : User} {tx : TransactionCreate}
    {db' : DB} {t : TransactionRow}
    (h : create_transaction db u tx = .ok (db', t)) :
    ∃ total ds db1 db2,
      validateTypeRole tx.transaction_type u.role = .ok () ∧
      processItems tx.transaction_type tx.items 0 [] db = .ok (total, ds, db1) ∧
      applyCreditCheck db1 u tx.payment_method total = .ok db2 ∧
      t = { id := db2.transactions.length + 1
            transaction_type := tx.transaction_type
            user_id := u.id
            amount := total
            payment_method := tx.payment_method
            status := tx.status
            notes := tx.notes } ∧
      db' = { db2 with
              transactions := db2.transactions ++ [t]
              transaction_items := db2.transaction_items ++ ds.map (fun d =>
                { transaction_id := t.id
                  product_id := d.product_id
                  produce_id := d.produce_id
                  quantity := d.quantity
                  unit_price := d.unit_price })
              commissions := db2.commissions ++
                (if tx.transaction_type = "produce_sale" then
                  match db2.users.find? (fun v => v.role = "admin") with
                  | some a =>
                    [{ transaction_id := t.id
                       amount := total * COMMISSION_RATE
                       commission_rate := COMMISSION_RATE
                       beneficiary_id := a.id }]
                  | none => []
                else []) } := by
  unfold create_transaction at h
  split at h
  · cases h
  · rename_i a hv
    split at h
    · cases h
    · rename_i total ds db1 hp
      split at h
      · cases h
      · rename_i db2 hc
        simp only [Except.ok.injEq, Prod.mk.injEq] at h
        obtain ⟨hdb, ht⟩ := h
        cases a
        exact ⟨total, ds, db1, db2, hv, hp, hc, ht.symm, by rw [← hdb, ← ht]⟩

theorem processItem_ok_total {tt : String} {db : DB} {item : TransactionItemCreate}
    {c : ℚ} {ds : List ItemData} {db' : DB}
    (h : processItem tt db item = .ok (c, ds, db')) :
    c = (ds.map (fun d => d.quantity * d.unit_price)).sum := by
  unfold processItem at h
  repeat' split at h
  all_goals simp_all
  all_goals (obtain ⟨h1, h2, -⟩ := h; rw [← h1, ← h2]; simp)

theorem processItems_ok_total {tt : String} {items : List TransactionItemCreate}
    {t0 : ℚ} {a0 : List ItemData} {db : DB}
    {T : ℚ} {A : List ItemData} {db' : DB}
    (h : processItems tt items t0 a0 db = .ok (T, A, db')) :
    ∃ extra, A = a0 ++ extra ∧
      T = t0 + (extra.map (fun d => d.quantity * d.unit_price)).sum := by
  induction items generalizing t0 a0 db with
  | nil =>
    unfold processItems at h
    simp only [Except.ok.injEq, Prod.mk.injEq] at h
    obtain ⟨rfl, rfl, -⟩ := h
    exact ⟨[], by simp⟩
  | cons item rest ih =>
    unfold processItems at h
    cases hp : processItem tt db item with
    | error e => rw [hp] at h; cases h
    | ok v =>
      obtain ⟨c, ds, dbm⟩ := v
      rw [hp] at h
      obtain ⟨extra, hA, hT⟩ := ih h
      refine ⟨ds ++ extra, by rw [hA, List.append_assoc], ?_⟩
      rw [hT, processItem_ok_total hp]
      simp only [List.map_append, List.sum_append]
      ring

theorem processItem_ok_produceInvariant {tt : String} {db : DB}
    {item : TransactionItemCreate} {c : ℚ} {ds : List ItemData} {db' : DB}
    (hinv : ProduceInvariant db)
    (h : processItem tt db item = .ok (c, ds, db')) : ProduceInvariant db' := by
  unfold processItem at h
  split at h
  · -- product_purchase: the produce table is untouched
    split at h
    · cases h
    · split at h
      · cases h
      · split at h
        · cases h
        · simp only [Except.ok.injEq, Prod.mk.injEq] at h
          obtain ⟨-, -, hdb⟩ := h
          subst hdb
          exact hinv
  · split at h
    · -- produce_sale
      split at h
      · cases h
      · rename_i pid
        split at h
        · cases h
        · rename_i produce hfind
          split at h
          · cases h
          · rename_i havail
            split at h
            · cases h
            · simp only [Except.ok.injEq, Prod.mk.injEq] at h
              obtain ⟨-, -, hdb⟩ := h
              subst hdb
              intro q hq
              rcases mem_updateFirst_of_find? hfind q hq with hmem | heq
              · exact hinv q hmem
              · subst heq
                by_cases hz : produce.quantity - item.quantity ≤ 0
                · simp [hz]
                · have hav : produce.is_available = true := by
                    cases hb : produce.is_available
                    · exact absurd hb havail
                    · rfl
                  have hq0 : 0 < produce.quantity - item.quantity := not_le.mp hz
                  simp [hz, hav, hq0]
    · -- unknown transaction type: no-op
      simp only [Except.ok.injEq, Prod.mk.injEq] at h
      obtain ⟨-, -, hdb⟩ := h
      subst hdb
      exact hinv

theorem processItems_ok_produceInvariant {tt : String}
    {items : List TransactionItemCreate} {t0 : ℚ} {a0 : List ItemData} {db : DB}
    {T : ℚ} {A : List ItemData} {db' : DB}
    (hinv : ProduceInvariant db)
    (h : processItems tt items t0 a0 db = .ok (T, A, db')) : ProduceInvariant db' := by
  induction items generalizing t0 a0 db with
  | nil =>
    unfold processItems at h
    simp only [Except.ok.injEq, Prod.mk.injEq] at h
    obtain ⟨-, -, rfl⟩ := h
    exact hinv
  | cons item rest ih =>
    unfold processItems at h
    cases hp : processItem tt db item with
    | error e => rw [hp] at h; cases h
    | ok v =>
      obtain ⟨c, ds, dbm⟩ := v
      rw [hp] at h
      exact ih (processItem_ok_produceInvariant hinv hp) h

theorem create_credit_repayment_ok_inv {db : DB} {u : User}
    {r : CreditRepaymentCreate} {db' : DB} {rec : CreditRepaymentRow}
    (h : create_credit_repayment db u r = .ok (db', rec)) :
    ∃ acct, db.credit_accounts.find? (fun a => a.id = r.credit_account_id) = some acct ∧
      u.role = "salesperson" ∧ ¬ r.amount ≤ 0 ∧ ¬ r.amount > acct.current_balance ∧
      rec = { id := db.credit_repayments.length + 1
              credit_account_id := r.credit_account_id
              amount := r.amount
              repayment_method := r.repayment_method
              recorded_by := u.id } ∧
      db' = { db with
              credit_repayments := db.credit_repayments ++ [rec]
              credit_accounts := updateFirst (fun a => a.id = r.credit_account_id)
                (fun a => { a with current_balance := a.current_balance - r.amount })
                db.credit_accounts } := by
  unfold create_credit_repayment at h
  split at h
  · cases h
  · rename_i hrole
    split at h
    · cases h
    · rename_i acct hfind
      split at h
      · cases h
      · rename_i hpos
        split at h
        · cases h
        · rename_i hbal
          simp only [Except.ok.injEq, Prod.mk.injEq] at h
          obtain ⟨hdb, hrec⟩ := h
          exact ⟨acct, hfind, not_not.mp hrole, hpos, hbal, hrec.symm,
            by rw [← hdb, ← hrec]⟩

theorem create_transaction_ok_accounts {db : DB} {u : User} {tx : TransactionCreate}
    {db' : DB} {t : TransactionRow}
    (h : create_transaction db u tx = .ok (db', t)) :
    db'.credit_accounts = db.credit_accounts := by
  obtain ⟨total, ds, db1, db2, hv, hp, hc, ht, hdb⟩ := create_transaction_ok_inv h
  have hne : u.role ≠ "farmer" := by
    rcases validateTypeRole_ok_role hv with h1 | h1 <;> simp [h1]
  have h21 : db2 = db1 := applyCreditCheck_ok_of_role_ne_farmer hne hc
  rw [hdb]
  show db2.credit_accounts = db.credit_accounts
  rw [h21]
  exact (processItems_ok_tables hp).2.1

theorem create_transaction_endpoint_accounts (db : DB) (u : User)
    (tx : TransactionCreate) :
    (create_transaction_endpoint db u tx).1.credit_accounts = db.credit_accounts := by
  unfold create_transaction_endpoint
  cases hct : create_transaction db u tx with
  | error e => rfl
  | ok v =>
    obtain ⟨db', t⟩ := v
    exact create_transaction_ok_accounts hct

theorem create_credit_repayment_endpoint_invariant (db : DB) (u : User)
    (r : CreditRepaymentCreate) (h : CreditInvariant db) :
    CreditInvariant (create_credit_repayment_endpoint db u r).1 := by
  unfold create_credit_repayment_endpoint
  cases hcr : create_credit_repayment db u r with
  | error e => exact h
  | ok v =>
    obtain ⟨db', rec⟩ := v
    obtain ⟨acct, hfind, -, hpos, hbal, -, hdb⟩ := create_credit_repayment_ok_inv hcr
    subst hdb
    intro a ha
    rcases mem_updateFirst_of_find? hfind a ha with hmem | heq
    · exact h a hmem
    · subst heq
      have hacct := h acct (List.mem_of_find?_eq_some hfind)
      have h1 : r.amount ≤ acct.current_balance := not_lt.mp hbal
      have h2 : 0 < r.amount := not_le.mp hpos
      constructor
      · simp only []
        linarith
      · simp only []
        linarith [hacct.2]

theorem processItem_ok_nonneg {tt : String} {db : DB} {item : TransactionItemCreate}
    {c : ℚ} {ds : List ItemData} {db' : DB}
    (hst : ∀ p ∈ db.products, 0 ≤ p.quantity_in_stock)
    (hqt : ∀ p ∈ db.produces, 0 ≤ p.quantity)
    (h : processItem tt db item = .ok (c, ds, db')) :
    (∀ p ∈ db'.products, 0 ≤ p.quantity_in_stock) ∧
    (∀ p ∈ db'.produces, 0 ≤ p.quantity) := by
  unfold processItem at h
  split at h
  · split at h
    · cases h
    · split at h
      · cases h
      · rename_i product hfind
        split at h
        · cases h
        · rename_i hstock
          simp only [Except.ok.injEq, Prod.mk.injEq] at h
          obtain ⟨-, -, hdb⟩ := h
          subst hdb
          refine ⟨?_, hqt⟩
          intro p hp
          rcases mem_updateFirst_of_find? hfind p hp with hmem | heq
          · exact hst p hmem
          · subst heq
            show 0 ≤ product.quantity_in_stock - item.quantity
            have := not_lt.mp hstock
            linarith
  · split at h
    · split at h
      · cases h
      · split at h
        · cases h
        · rename_i produce hfind
          split at h
          · cases h
          · split at h
            · cases h
            · simp only [Except.ok.injEq, Prod.mk.injEq] at h
              obtain ⟨-, -, hdb⟩ := h
              subst hdb
              refine ⟨hst, ?_⟩
              intro p hp
              rcases mem_updateFirst_of_find? hfind p hp with hmem | heq
              · exact hqt p hmem
              · subst heq
                by_cases hz : produce.quantity - item.quantity ≤ 0
                · simp [hz]
                · have := not_le.mp hz
                  simp [hz]
                  linarith
    · simp only [Except.ok.injEq, Prod.mk.injEq] at h
      obtain ⟨-, -, hdb⟩ := h
      subst hdb
      exact ⟨hst, hqt⟩

theorem processItems_ok_nonneg {tt : String} {items : List TransactionItemCreate}
    {t0 : ℚ} {a0 : List ItemData} {db : DB} {T : ℚ} {A : List ItemData} {db' : DB}
    (hst : ∀ p ∈ db.products, 0 ≤ p.quantity_in_stock)
    (hqt : ∀ p ∈ db.produces, 0 ≤ p.quantity)
    (h : processItems tt items t0 a0 db = .ok (T, A, db')) :
    (∀ p ∈ db'.products, 0 ≤ p.quantity_in_stock) ∧
    (∀ p ∈ db'.produces, 0 ≤ p.quantity) := by
  induction items generalizing t0 a0 db with
  | nil =>
    unfold processItems at h
    simp only [Except.ok.injEq, Prod.mk.injEq] at h
    obtain ⟨-, -, rfl⟩ := h
    exact ⟨hst, hqt⟩
  | cons item rest ih =>
    unfold processItems at h
    cases hp : processItem tt db item with
    | error e => rw [hp] at h; cases h
    | ok v =>
      obtain ⟨c, ds, dbm⟩ := v
      rw [hp] at h
      obtain ⟨h1, h2⟩ := processItem_ok_nonneg hst hqt hp
      exact ih h1 h2 h

theorem itemRow_map_sum (tid : Nat) (ds : List ItemData) :
    ((ds.map (fun d =>
        ({ transaction_id := tid
           product_id := d.product_id
           produce_id := d.produce_id
           quantity := d.quantity
           unit_price := d.unit_price } : TransactionItemRow))).map
      (fun i => i.quantity * i.unit_price)).sum
    = (ds.map (fun d => d.quantity * d.unit_price)).sum := by
  induction ds with
  | nil => rfl
  | cons d ds ih =>
    simp only [List.map_cons, List.sum_cons, ih]

theorem applyOp_creditInvariant {db : DB} {op : Op} (h : CreditInvariant db) :
    CreditInvariant (applyOp db op) := by
  cases op with
  | order u tx =>
    intro a ha
    have heq : (applyOp db (Op.order u tx)).credit_accounts = db.credit_accounts :=
      create_transaction_endpoint_accounts db u tx
    rw [heq] at ha
    exact h a ha
  | repay u r => exact create_credit_repayment_endpoint_invariant db u r h

/-! ### Claim theorems -/

/-- Claim C1: `create_transaction` is atomic — if the operation fails at any
step (including a failure on a later line item after earlier line items were
already decremented in the session, or a credit failure after decrements),
the committed state is exactly the pre-call state: no product stock, produce
quantity/availability or credit balance changes, and no transaction, item or
commission rows. -/
theorem create_transaction_atomic (db : DB) (u : User) (tx : TransactionCreate)
    (e : Err) (h : create_transaction db u tx = .error e) :
    create_transaction_endpoint db u tx = (db, none) := by
  unfold create_transaction_endpoint
  rw [h]

/-- Witness for C1: a two-line purchase whose second line fails with
`insufficientStock` after the first line has already been decremented in the
session (the mid-loop state has stock 6), yet the committed state is the
original database. -/
theorem create_transaction_atomic_witness :
    create_transaction c1db c1user c1tx = .error (.insufficientStock 2) ∧
    processItems "product_purchase" [⟨some 1, none, 4, 0⟩] 0 [] c1db =
      .ok (8, [⟨some 1, none, 4, 2⟩], c1dbMid) ∧
    c1dbMid.products = [⟨1, "hoe", 2, 6⟩, ⟨2, "rake", 3, 1⟩] ∧
    create_transaction_endpoint c1db c1user c1tx = (c1db, none) :=
  ⟨by with_unfolding_all rfl, by with_unfolding_all rfl, by with_unfolding_all rfl,
   create_transaction_atomic c1db c1user c1tx (.insufficientStock 2)
     (by with_unfolding_all rfl)⟩

/-- Claim C2: starting from any state whose credit accounts all satisfy
`0 ≤ current_balance ≤ credit_limit`, the invariant still holds after any
sequence of committed `create_transaction` and `create_credit_repayment`
operations. -/
theorem creditAccount_invariant_preserved (db : DB) (ops : List Op)
    (h : CreditInvariant db) : CreditInvariant (applyOps db ops) := by
  induction ops generalizing db with
  | nil => exact h
  | cons op rest ih => exact ih _ (applyOp_creditInvariant h)

/-- Witness for C2: account `limit=100, balance=90`; a repayment of 50
commits (balance 40), a second repayment of 50 is rejected; the invariant
holds throughout and the final balance is 40, matching the spec scenario. -/
theorem creditAccount_invariant_preserved_witness :
    CreditInvariant c2db ∧ CreditInvariant (applyOps c2db c2ops) ∧
    (applyOps c2db c2ops).credit_accounts = [⟨1, 7, 100, 40⟩] :=
  ⟨by with_unfolding_all decide,
   creditAccount_invariant_preserved c2db c2ops (by with_unfolding_all decide),
   by with_unfolding_all rfl⟩

/-- Claim C10: no order with `payment_method = "credit"` can ever commit:
the type/role gate only lets roles admin/salesperson through, while the
credit branch demands role farmer; hence every credit request errors, and a
successful `create_transaction` never changes any credit account (in
particular it never increases a balance). -/
theorem credit_payment_never_commits (db : DB) (u : User) (tx : TransactionCreate) :
    (tx.payment_method = "credit" → ∃ e, create_transaction db u tx = .error e) ∧
    (∀ db' t, create_transaction db u tx = .ok (db', t) →
      db'.credit_accounts = db.credit_accounts) := by
  constructor
  · intro hpm
    cases hct : create_transaction db u tx with
    | error e => exact ⟨e, rfl⟩
    | ok v =>
      obtain ⟨db', t⟩ := v
      obtain ⟨total, ds, db1, db2, hv, hp, hc, -, -⟩ := create_transaction_ok_inv hct
      have hne : u.role ≠ "farmer" := by
        rcases validateTypeRole_ok_role hv with h1 | h1 <;> simp [h1]
      rw [hpm, applyCreditCheck_credit_error hne] at hc
      cases hc
  · intro db' t h
    exact create_transaction_ok_accounts h

/-- Witness for C10: a salesperson's credit purchase request is rejected
(at the credit branch, with the 403 `forbiddenCreditRole` error). -/
theorem credit_payment_never_commits_witness :
    (∃ e, create_transaction c10db c10u c10tx = .error e) ∧
    create_transaction c10db c10u c10tx = .error .forbiddenCreditRole :=
  ⟨(credit_payment_never_commits c10db c10u c10tx).1 rfl,
   by with_unfolding_all rfl⟩

/-- Claim C3 counterexample: the produce update endpoint applies the set
fields verbatim, so updating `quantity` to 0 without touching `is_available`
commits a state with `quantity = 0` and `is_available = true`, violating
`is_available == (quantity > 0)`. -/
theorem update_produce_can_violate_availability_invariant :
    update_produce c3db ⟨1, "admin", true⟩ 1 { quantity := some 0 } =
      .ok ({ c3db with produces := [⟨1, "kale", "vegetable", 0, 3, 2, true⟩] },
           ⟨1, "kale", "vegetable", 0, 3, 2, true⟩) ∧
    ¬ ProduceInvariant { c3db with produces := [⟨1, "kale", "vegetable", 0, 3, 2, true⟩] } :=
  ⟨by with_unfolding_all rfl, by with_unfolding_all decide⟩

/-- Claim C3 (amended): `is_available == (quantity > 0)` is preserved by every
committed order — in particular a sale that exhausts a lot leaves
`quantity = 0`, `is_available = false` — but `update_produce` does not enforce
it: an update setting `quantity` and `is_available` inconsistently commits as
given. -/
theorem produce_invariant_preserved_by_orders {db : DB} {u : User}
    {tx : TransactionCreate} {db' : DB} {t : TransactionRow}
    (hinv : ProduceInvariant db)
    (h : create_transaction db u tx = .ok (db', t)) : ProduceInvariant db' := by
  obtain ⟨total, ds, db1, db2, hv, hp, hc, ht, hdb⟩ := create_transaction_ok_inv h
  have h1 : ProduceInvariant db1 := processItems_ok_produceInvariant hinv hp
  have h2 : db2.produces = db1.produces := (applyCreditCheck_ok_tables hc).2.2.1
  subst hdb
  intro p hpm
  have hpm' : p ∈ db1.produces := by rw [← h2]; exact hpm
  exact h1 p hpm'

/-- Witness for the amended C3: a sale of the full quantity 5 leaves the lot
at `quantity = 0, is_available = false` and the invariant holds afterwards. -/
theorem produce_invariant_preserved_by_orders_witness :
    ProduceInvariant c3s_db ∧
    create_transaction c3s_db c3sUser c3s_tx = .ok (c3s_db', c3s_t) ∧
    c3s_db'.produces = [⟨1, "kale", "vegetable", 0, 3, 9, false⟩] ∧
    ProduceInvariant c3s_db' := by
  have h : create_transaction c3s_db c3sUser c3s_tx = .ok (c3s_db', c3s_t) := by
    with_unfolding_all rfl
  exact ⟨by with_unfolding_all decide, h, rfl,
    produce_invariant_preserved_by_orders (by with_unfolding_all decide) h⟩

/-- Claim C4 (code bug): for `product_purchase` the code's role check admits
`admin` and `salesperson` and rejects `farmer` — yet the very error message of
that check ("Only farmers and salespersons can create product purchases")
documents the claimed farmer/salesperson policy. The remaining parts of the
claim hold: `produce_sale` is salesperson-only, an unknown type is a 400
InvalidTransactionType, and nothing is committed on a role mismatch. -/
theorem product_purchase_role_gate_mismatch :
    create_transaction c4db ⟨4, "farmer", true⟩ c4tx = .error .forbiddenPurchaseRole ∧
    create_transaction_endpoint c4db ⟨4, "farmer", true⟩ c4tx = (c4db, none) ∧
    Err.statusCode .forbiddenPurchaseRole = 403 ∧
    Err.detail .forbiddenPurchaseRole =
      "Only farmers and salespersons can create product purchases" ∧
    validateTypeRole "product_purchase" "admin" = .ok () ∧
    validateTypeRole "product_purchase" "salesperson" = .ok () ∧
    validateTypeRole "product_purchase" "farmer" = .error .forbiddenPurchaseRole ∧
    validateTypeRole "produce_sale" "salesperson" = .ok () ∧
    validateTypeRole "produce_sale" "farmer" = .error .forbiddenSaleRole ∧
    validateTypeRole "payment" "admin" = .error .invalidTransactionType ∧
    Err.statusCode .invalidTransactionType = 400 :=
  ⟨by with_unfolding_all rfl, by with_unfolding_all rfl, rfl, rfl, rfl, rfl,
   rfl, rfl, rfl, rfl, rfl⟩

/-- Claim C5 counterexample: when no user with role `admin` exists, a produce
sale commits with no Commission row at all, contradicting "exactly one
Commission record is created together with it". -/
theorem produce_sale_without_admin_creates_no_commission :
    create_transaction c5db ⟨2, "salesperson", true⟩ c5tx = .ok (c5db', c5t) ∧
    c5t.transaction_type = "produce_sale" ∧
    c5db'.commissions = [] ∧
    c5db.users.find? (fun v => v.role = "admin") = none :=
  ⟨by with_unfolding_all rfl, rfl, rfl, rfl⟩

/-- Claim C5 (amended): a committed produce sale creates exactly one
Commission — with `amount = transaction.amount * COMMISSION_RATE`,
`commission_rate = COMMISSION_RATE` (0.05) and the first admin user as
beneficiary — iff an admin user exists; with no admin the sale commits with
no Commission; a product purchase never creates one. -/
theorem commission_rule {db : DB} {u : User} {tx : TransactionCreate}
    {db' : DB} {t : TransactionRow}
    (h : create_transaction db u tx = .ok (db', t)) :
    db'.commissions = db.commissions ++
      (if tx.transaction_type = "produce_sale" then
        match db.users.find? (fun v => v.role = "admin") with
        | some a =>
          [{ transaction_id := t.id
             amount := t.amount * COMMISSION_RATE
             commission_rate := COMMISSION_RATE
             beneficiary_id := a.id }]
        | none => []
      else []) ∧
    (∀ a, db.users.find? (fun v => v.role = "admin") = some a → a.role = "admin") := by
  obtain ⟨total, ds, db1, db2, hv, hp, hc, ht, hdb⟩ := create_transaction_ok_inv h
  have husers : db2.users = db.users := by
    rw [(applyCreditCheck_ok_tables hc).1, (processItems_ok_tables hp).1]
  have hcomm : db2.commissions = db.commissions := by
    rw [(applyCreditCheck_ok_tables hc).2.2.2.2.2.1, (processItems_ok_tables hp).2.2.2.2.1]
  constructor
  · rw [hdb]
    show db2.commissions ++ _ = db.commissions ++ _
    have hamount : t.amount = total := by rw [ht]
    rw [hcomm, husers, hamount]
  · intro a ha
    have := List.find?_some ha
    simpa using this

/-- Witness for the amended C5: a sale with an admin present creates exactly
the one commission row `amount = 6 * 0.05 = 0.3`, `rate = 0.05`,
beneficiary the admin user. -/
theorem commission_rule_witness :
    create_transaction c5a_db c5aUser c5a_tx = .ok (c5a_db', c5a_t) ∧
    c5a_db'.commissions = c5a_db.commissions ++
      (if c5a_tx.transaction_type = "produce_sale" then
        match c5a_db.users.find? (fun v => v.role = "admin") with
        | some a =>
          [{ transaction_id := c5a_t.id
             amount := c5a_t.amount * COMMISSION_RATE
             commission_rate := COMMISSION_RATE
             beneficiary_id := a.id }]
        | none => []
      else []) ∧
    c5a_db'.commissions = [⟨1, 3/10, 1/20, 1⟩] := by
  have h : create_transaction c5a_db c5aUser c5a_tx = .ok (c5a_db', c5a_t) := by
    with_unfolding_all rfl
  exact ⟨h, (commission_rule h).1, by with_unfolding_all rfl⟩

/-- Claim C6: for every committed order, the persisted transaction amount is
exactly the sum over its persisted items of `quantity * unit_price`, and the
caller-supplied `amount` field is ignored (any value yields the same
result). -/
theorem transaction_amount_is_item_sum {db : DB} {u : User} {tx : TransactionCreate}
    {db' : DB} {t : TransactionRow}
    (h : create_transaction db u tx = .ok (db', t)) :
    (∃ newItems, db'.transaction_items = db.transaction_items ++ newItems ∧
      (∀ i ∈ newItems, i.transaction_id = t.id) ∧
      t.amount = (newItems.map (fun i => i.quantity * i.unit_price)).sum) ∧
    (∀ amt : ℚ, create_transaction db u { tx with amount := amt } = .ok (db', t)) := by
  obtain ⟨total, ds, db1, db2, hv, hp, hc, ht, hdb⟩ := create_transaction_ok_inv h
  constructor
  · refine ⟨ds.map (fun d =>
      { transaction_id := t.id
        product_id := d.product_id
        produce_id := d.produce_id
        quantity := d.quantity
        unit_price := d.unit_price }), ?_, ?_, ?_⟩
    · rw [hdb]
      show db2.transaction_items ++ _ = db.transaction_items ++ _
      rw [(applyCreditCheck_ok_tables hc).2.2.2.2.1, (processItems_ok_tables hp).2.2.2.1]
    · intro i hi
      simp only [List.mem_map] at hi
      obtain ⟨d, -, rfl⟩ := hi
      rfl
    · obtain ⟨extra, hA, hT⟩ := processItems_ok_total hp
      simp only [List.nil_append] at hA
      subst hA
      have hamount : t.amount = total := by rw [ht]
      rw [hamount, hT, itemRow_map_sum]
      simp
  · intro amt
    have heq : create_transaction db u { tx with amount := amt } =
        create_transaction db u tx := by
      cases tx
      rfl
    rw [heq, h]

/-- Witness for C6: a two-line purchase (4 × 2 + 2 × 5) commits with
`amount = 18` even though the caller sent `amount = 1234`, and resending with
`amount = 777` gives the identical result. -/
theorem transaction_amount_is_item_sum_witness :
    create_transaction c6db c6user c6tx = .ok (c6db', c6t) ∧
    (∃ newItems, c6db'.transaction_items = c6db.transaction_items ++ newItems ∧
      (∀ i ∈ newItems, i.transaction_id = c6t.id) ∧
      c6t.amount = (newItems.map (fun i => i.quantity * i.unit_price)).sum) ∧
    c6t.amount = 18 ∧ c6tx.amount = 1234 ∧
    create_transaction c6db c6user { c6tx with amount := 777 } = .ok (c6db', c6t) := by
  have h : create_transaction c6db c6user c6tx = .ok (c6db', c6t) := by
    with_unfolding_all rfl
  exact ⟨h, (transaction_amount_is_item_sum h).1, rfl, rfl,
    (transaction_amount_is_item_sum h).2 777⟩

/-- Claim C7: per-line resolution — a missing catalog row is a 404 NotFound;
an unavailable produce lot is a 400 Unavailable; a requested quantity above
the available quantity is a 400 InsufficientStock; otherwise the stored
quantity is decremented by exactly the requested quantity (for produce,
availability becomes `quantity > 0`, i.e. the lot is withdrawn and clamped at
zero when exhausted); stored quantities never become negative; and the first
failing line aborts the whole loop in request order. -/
theorem reserveAndDecrement_rules (db : DB) (item : TransactionItemCreate) :
    (∀ pid, item.product_id = some pid →
      (db.products.find? (fun p => p.id = pid) = none →
        processItem "product_purchase" db item = .error (.productNotFound pid)) ∧
      (∀ product, db.products.find? (fun p => p.id = pid) = some product →
        (product.quantity_in_stock < item.quantity →
          processItem "product_purchase" db item = .error (.insufficientStock pid)) ∧
        (¬ product.quantity_in_stock < item.quantity →
          ∃ c ds db', processItem "product_purchase" db item = .ok (c, ds, db') ∧
            db'.products.find? (fun p => p.id = pid) = some
              { product with
                quantity_in_stock := product.quantity_in_stock - item.quantity }))) ∧
    (∀ pid, item.produce_id = some pid →
      (db.produces.find? (fun p => p.id = pid) = none →
        processItem "produce_sale" db item = .error (.produceNotFound pid)) ∧
      (∀ produce, db.produces.find? (fun p => p.id = pid) = some produce →
        (produce.is_available = false →
          processItem "produce_sale" db item = .error (.produceUnavailable pid)) ∧
        (produce.is_available = true → produce.quantity < item.quantity →
          processItem "produce_sale" db item =
            .error (.insufficientProduceQuantity pid)) ∧
        (produce.is_available = true → ¬ produce.quantity < item.quantity →
          ∃ c ds db', processItem "produce_sale" db item = .ok (c, ds, db') ∧
            ∃ pr', db'.produces.find? (fun p => p.id = pid) = some pr' ∧
              pr'.quantity = produce.quantity - item.quantity ∧
              pr'.is_available = decide (0 < produce.quantity - item.quantity)))) ∧
    (∀ tt c ds db',
      (∀ p ∈ db.products, 0 ≤ p.quantity_in_stock) →
      (∀ p ∈ db.produces, 0 ≤ p.quantity) →
      processItem tt db item = .ok (c, ds, db') →
      (∀ p ∈ db'.products, 0 ≤ p.quantity_in_stock) ∧
      (∀ p ∈ db'.produces, 0 ≤ p.quantity)) ∧
    (∀ tt rest total acc e, processItem tt db item = .error e →
      processItems tt (item :: rest) total acc db = .error e) := by
  refine ⟨?_, ?_, ?_, ?_⟩
  · intro pid hpid
    refine ⟨?_, ?_⟩
    · intro hfind
      unfold processItem
      simp [hpid, hfind]
    · intro product hfind
      refine ⟨?_, ?_⟩
      · intro hlt
        unfold processItem
        simp [hpid, hfind, hlt]
      · intro hge
        refine ⟨item.quantity * snapshotPrice item.unit_price product.price,
          [⟨some product.id, none, item.quantity,
            snapshotPrice item.unit_price product.price⟩],
          { db with
            products := updateFirst (fun p => p.id = pid)
              (fun p => { p with quantity_in_stock := p.quantity_in_stock - item.quantity })
              db.products }, ?_, ?_⟩
        · unfold processItem
          simp [hpid, hfind, hge]
        · refine find?_updateFirst hfind ?_
          simpa using List.find?_some hfind
  · intro pid hpid
    refine ⟨?_, ?_⟩
    · intro hfind
      unfold processItem
      simp [hpid, hfind]
    · intro produce hfind
      refine ⟨?_, ?_, ?_⟩
      · intro hun
        unfold processItem
        simp [hpid, hfind, hun]
      · intro hav hlt
        unfold processItem
        simp [hpid, hfind, hav, hlt]
      · intro hav hge
        refine ⟨item.quantity * snapshotPrice item.unit_price produce.price_per_unit,
          [⟨none, some produce.id, item.quantity,
            snapshotPrice item.unit_price produce.price_per_unit⟩],
          { db with
            produces := updateFirst (fun p => p.id = pid)
              (fun p =>
                let q := p.quantity - item.quantity
                if q ≤ 0 then { p with quantity := 0, is_available := false }
                else { p with quantity := q })
              db.produces }, ?_, ?_⟩
        · unfold processItem
          simp [hpid, hfind, hav, hge]
        · refine ⟨_, find?_updateFirst hfind ?_, ?_, ?_⟩
          · by_cases hz : produce.quantity - item.quantity ≤ 0
            · simpa [hz] using List.find?_some hfind
            · simpa [hz] using List.find?_some hfind
          · by_cases hz : produce.quantity - item.quantity ≤ 0
            · have h0 : produce.quantity - item.quantity = 0 := by
                have := not_lt.mp hge
                have : 0 ≤ produce.quantity - item.quantity := by linarith
                linarith
              simp [hz, h0]
            · simp [hz]
          · by_cases hz : produce.quantity - item.quantity ≤ 0
            · have h0 : produce.quantity - item.quantity = 0 := by
                have := not_lt.mp hge
                have : 0 ≤ produce.quantity - item.quantity := by linarith
                linarith
              simp [hz, h0]
            · have h0 : 0 < produce.quantity - item.quantity := not_le.mp hz
              simp [hz, hav, h0]
  · intro tt c ds db' hst hqt h
    exact processItem_ok_nonneg hst hqt h
  · intro tt rest total acc e h
    unfold processItems
    rw [h]

/-- Witness for C7: resolving 4 units of a product with stock 10 succeeds and
leaves stock 6; resolving 11 units fails with `insufficientStock`. -/
theorem reserveAndDecrement_rules_witness :
    (∃ c ds db', processItem "product_purchase" c7db c7item = .ok (c, ds, db') ∧
      db'.products.find? (fun p => p.id = 1) = some
        { c7prod with quantity_in_stock := c7prod.quantity_in_stock - c7item.quantity }) ∧
    processItem "product_purchase" c7db c7item2 = .error (.insufficientStock 1) := by
  refine ⟨?_, by with_unfolding_all rfl⟩
  exact (((reserveAndDecrement_rules c7db c7item).1 1 rfl).2 c7prod
    (by with_unfolding_all rfl)).2 (by with_unfolding_all decide)

/-- Claim C8 counterexample: a negative caller-supplied `unit_price` is
truthy in Python, so the code snapshots the negative override (-1) onto the
item instead of the catalog price (5), and even commits a negative
transaction amount. -/
theorem negative_price_override_recorded :
    snapshotPrice (-1) 5 = -1 ∧
    create_transaction c8db c8user c8tx = .ok (c8db', c8t) ∧
    c8db'.transaction_items = [⟨1, some 1, none, 2, -1⟩] ∧
    c8db.products.map Product.price = [5] ∧
    c8t.amount = -2 :=
  ⟨by with_unfolding_all decide, by with_unfolding_all rfl, rfl, rfl, rfl⟩

/-- Claim C8 (amended): the unit price recorded on a line item is the
caller-supplied `unit_price` whenever it is nonzero (positive or negative),
and the catalog price exactly when it is zero; the schema makes `unit_price`
a required field, so an absent override cannot occur. -/
theorem price_snapshot_rule (db : DB) (item : TransactionItemCreate) :
    (∀ pid product, item.product_id = some pid →
      db.products.find? (fun p => p.id = pid) = some product →
      ¬ product.quantity_in_stock < item.quantity →
      ∃ c db', processItem "product_purchase" db item =
        .ok (c, [⟨some product.id, none, item.quantity,
          if item.unit_price = 0 then product.price else item.unit_price⟩], db')) ∧
    (∀ pid produce, item.produce_id = some pid →
      db.produces.find? (fun p => p.id = pid) = some produce →
      produce.is_available = true → ¬ produce.quantity < item.quantity →
      ∃ c db', processItem "produce_sale" db item =
        .ok (c, [⟨none, some produce.id, item.quantity,
          if item.unit_price = 0 then produce.price_per_unit else item.unit_price⟩], db')) := by
  have hsnap : ∀ o c : ℚ, snapshotPrice o c = if o = 0 then c else o := by
    intro o c
    unfold snapshotPrice
    by_cases h : o = 0 <;> simp [h]
  constructor
  · intro pid product hpid hfind hge
    refine ⟨item.quantity * snapshotPrice item.unit_price product.price,
      { db with
        products := updateFirst (fun p => p.id = pid)
          (fun p => { p with quantity_in_stock := p.quantity_in_stock - item.quantity })
          db.products }, ?_⟩
    unfold processItem
    simp [hpid, hfind, hge, hsnap]
  · intro pid produce hpid hfind hav hge
    refine ⟨item.quantity * snapshotPrice item.unit_price produce.price_per_unit,
      { db with
        produces := updateFirst (fun p => p.id = pid)
          (fun p =>
            let q := p.quantity - item.quantity
            if q ≤ 0 then { p with quantity := 0, is_available := false }
            else { p with quantity := q })
          db.produces }, ?_⟩
    unfold processItem
    simp [hpid, hfind, hav, hge, hsnap]

/-- Witness for the amended C8: with a zero override the catalog price 5 is
snapshotted. -/
theorem price_snapshot_rule_witness :
    ∃ c db', processItem "product_purchase" c8db c8witem =
      .ok (c, [⟨some 1, none, 2,
        if c8witem.unit_price = 0 then (5:ℚ) else c8witem.unit_price⟩], db') :=
  (price_snapshot_rule c8db c8witem).1 1 ⟨1, "hoe", 5, 10⟩ rfl
    (by with_unfolding_all rfl) (by with_unfolding_all decide)

/-- Claim C9: a repayment against an existing credit account fails with a 400
InvalidAmount when `amount ≤ 0`, fails with a 400 ExceedsBalance when
`amount > current_balance` (the committed state is unchanged in both failure
cases), and otherwise commits exactly one repayment record while decreasing
the balance by exactly `amount`, atomically, touching no other table. -/
theorem repayment_rules (db : DB) (u : User) (r : CreditRepaymentCreate)
    (acct : CreditAccount) (hrole : u.role = "salesperson")
    (hacct : db.credit_accounts.find? (fun a => a.id = r.credit_account_id) = some acct) :
    (r.amount ≤ 0 →
      create_credit_repayment db u r = .error .invalidRepaymentAmount ∧
      create_credit_repayment_endpoint db u r = (db, none)) ∧
    (¬ r.amount ≤ 0 → r.amount > acct.current_balance →
      create_credit_repayment db u r = .error .repaymentExceedsBalance ∧
      create_credit_repayment_endpoint db u r = (db, none)) ∧
    (¬ r.amount ≤ 0 → ¬ r.amount > acct.current_balance →
      ∃ db' rec, create_credit_repayment db u r = .ok (db', rec) ∧
        db'.credit_repayments = db.credit_repayments ++ [rec] ∧
        rec.amount = r.amount ∧ rec.credit_account_id = r.credit_account_id ∧
        db'.credit_accounts.find? (fun a => a.id = r.credit_account_id) = some
          { acct with current_balance := acct.current_balance - r.amount } ∧
        db'.products = db.products ∧ db'.produces = db.produces ∧
        db'.transactions = db.transactions ∧ db'.users = db.users) := by
  refine ⟨?_, ?_, ?_⟩
  · intro hle
    have he : create_credit_repayment db u r = .error .invalidRepaymentAmount := by
      unfold create_credit_repayment
      simp [hrole, hacct, hle]
    exact ⟨he, by unfold create_credit_repayment_endpoint; rw [he]⟩
  · intro hpos hgt
    have he : create_credit_repayment db u r = .error .repaymentExceedsBalance := by
      unfold create_credit_repayment
      simp [hrole, hacct, hpos, hgt]
    exact ⟨he, by unfold create_credit_repayment_endpoint; rw [he]⟩
  · intro hpos hle
    refine ⟨{ db with
        credit_repayments := db.credit_repayments ++
          [⟨db.credit_repayments.length + 1, r.credit_account_id, r.amount,
            r.repayment_method, u.id⟩]
        credit_accounts := updateFirst (fun a => a.id = r.credit_account_id)
          (fun a => { a with current_balance := a.current_balance - r.amount })
          db.credit_accounts },
      ⟨db.credit_repayments.length + 1, r.credit_account_id, r.amount,
        r.repayment_method, u.id⟩, ?_, rfl, rfl, rfl, ?_, rfl, rfl, rfl, rfl⟩
    · unfold create_credit_repayment
      simp [hrole, hacct, hpos, hle]
    · refine find?_updateFirst hacct ?_
      simpa using List.find?_some hacct

/-- Witness for C9: repaying 50 against balance 90 commits one record and
leaves balance 40; the two failure guards are also exercised on the same
account (amount 0 and amount 95). -/
theorem repayment_rules_witness :
    (∃ db' rec, create_credit_repayment c9db c9sales c9req = .ok (db', rec) ∧
      db'.credit_repayments = c9db.credit_repayments ++ [rec] ∧
      rec.amount = c9req.amount ∧ rec.credit_account_id = c9req.credit_account_id ∧
      db'.credit_accounts.find? (fun a => a.id = c9req.credit_account_id) = some
        { c9acct with current_balance := c9acct.current_balance - c9req.amount } ∧
      db'.products = c9db.products ∧ db'.produces = c9db.produces ∧
      db'.transactions = c9db.transactions ∧ db'.users = c9db.users) ∧
    create_credit_repayment c9db c9sales ⟨1, 0, "cash"⟩ =
      .error .invalidRepaymentAmount ∧
    create_credit_repayment c9db c9sales ⟨1, 95, "cash"⟩ =
      .error .repaymentExceedsBalance := by
  refine ⟨?_, by with_unfolding_all rfl, by with_unfolding_all rfl⟩
  exact (repayment_rules c9db c9sales c9req c9acct rfl (by with_unfolding_all rfl)).2.2
    (by with_unfolding_all decide) (by with_unfolding_all decide)

end AgriManagement
